import Mathlib

/-!
Verification of the CipherNode game server core against its design
specification.

This file contains a shallow embedding of the real-time session and
resource-regeneration engine of the CipherNode repository:

* `SimpleDB.updatePlayerEnergy` / `getPlayerEnergy` (database adapter,
  the `SimpleDB` class: energy regeneration and spending),
* `SimpleDB.upsertPlayer`, `SimpleDB.updateGameStats`,
  `SimpleDB.getAchievementDefinitions`, `SimpleDB.checkAchievements`
  (score/stat commits and achievement unlocks),
* the socket event handlers of `server.js` (`join game`, `chat message`,
  `submit score`, `use energy`, `check energy`) and the `submit score`
  handler of `migrate-users.js` (which carries the level-scaled
  anti-cheat check), together with the 60-second background energy sweep.

JavaScript numbers are modelled as `Int` (all quantities involved are
exact integers); `Math.floor` of a quotient is `Int.fdiv`, the
JavaScript `%` operator is `Int.tmod`.  JavaScript falsiness of `0` is
modelled explicitly wherever the source relies on it (`player.energy ||
initialEnergy`, `player.level || 1`, `!player.bestTime`).  Timestamps
are epoch milliseconds; concrete instances use nonzero timestamps so the
`|| created_at` fallback for a missing/zero timestamp never fires.
-/

namespace CipherNode

/-- `ENERGY_REGENERATION_MINUTES` environment default (`server.js` line 19,
`SimpleDB` constructor): one energy unit per 5 minutes. -/
def energyRegenMinutes : Int := 5

/-- `MAX_ENERGY` environment default (`server.js` line 20): cap 100. -/
def maxEnergy : Int := 100

/-- `GAME_ENERGY_COST` environment default (`server.js` line 21): 10. -/
def gameEnergyCost : Int := 10

/-- `INITIAL_ENERGY` environment default (`server.js` line 22): 100. -/
def initialEnergy : Int := 100

/-- One stored player row of `players.json` (the `SimpleDB` store),
restricted to the fields the game core reads and writes. -/
structure Player where
  score : Int
  level : Int
  energy : Int
  /-- `lastEnergyUpdate`, epoch milliseconds. -/
  lastEnergyUpdate : Int
  totalGames : Int
  totalPlayTime : Int
  currentStreak : Int
  maxStreak : Int
  /-- `bestTime` in seconds; `none` models a field that was never set. -/
  bestTime : Option Int
  /-- `lastPlayed`, epoch milliseconds; `none` models a field never set. -/
  lastPlayed : Option Int
  /-- Unlocked achievement ids, in unlock order. -/
  achievements : List String
deriving DecidableEq

/-- The `data` object returned by `SimpleDB.updatePlayerEnergy`. -/
structure EnergyResult where
  energy : Int
  energyAdded : Int
  nextEnergyIn : Int
deriving DecidableEq

/-- `SimpleDB.updatePlayerEnergy(username, energyChange)` on the found
player row.  Source:

```
const minutesPassed = Math.floor((now - lastUpdate) / (1000 * 60));
const energyToAdd = Math.floor(minutesPassed / this.energyRegenMinutes);
let newEnergy = (player.energy || this.initialEnergy) + energyToAdd + energyChange;
newEnergy = Math.max(0, Math.min(this.maxEnergy, newEnergy));
player.energy = newEnergy; player.lastEnergyUpdate = now;
return \x7b energy, energyAdded: energyToAdd,
         nextEnergyIn: regenMinutes - (minutesPassed % regenMinutes) \x7d
```

A stored `energy` of `0` is falsy in JavaScript, so `player.energy ||
this.initialEnergy` replaces it by `initialEnergy`; the JavaScript `%`
is the truncating remainder `Int.tmod`. -/
def updatePlayerEnergy (p : Player) (now : Int) (energyChange : Int) :
    Player × EnergyResult :=
  let minutesPassed := Int.fdiv (now - p.lastEnergyUpdate) 60000
  let energyToAdd := Int.fdiv minutesPassed energyRegenMinutes
  let base := if p.energy = 0 then initialEnergy else p.energy
  let newEnergy := max 0 (min maxEnergy (base + energyToAdd + energyChange))
  ({ p with energy := newEnergy, lastEnergyUpdate := now },
   { energy := newEnergy
     energyAdded := energyToAdd
     nextEnergyIn := energyRegenMinutes - Int.tmod minutesPassed energyRegenMinutes })

/-- `SimpleDB.getPlayerEnergy(username)`: delegates to
`updatePlayerEnergy(username, 0)`. -/
def getPlayerEnergy (p : Player) (now : Int) : Player × EnergyResult :=
  updatePlayerEnergy p now 0

/-- `SimpleDB.upsertPlayer(username, score, level, email)` on an existing
player row: the score is overwritten only if strictly higher, the level
only if strictly higher than `player.level || 1` (a stored level of `0`
is falsy and is compared as `1`).  `server.js` calls this function with
the empty string in the level position (`upsertPlayer(user, score, '')`);
`'' > n` is always false for the stored nonnegative levels, which is
modelled by `level = none`. -/
def upsertPlayer (p : Player) (score : Int) (level : Option Int) : Player :=
  let p1 := if score > p.score then { p with score := score } else p
  match level with
  | none => p1
  | some l =>
    if l > (if p.level = 0 then 1 else p.level) then { p1 with level := l } else p1

/-- One catalog entry of `SimpleDB.getAchievementDefinitions()`: the id
and the condition closure (name, description, icon and points are not
read by the core logic and are omitted). -/
structure Achievement where
  id : String
  cond : Player → Bool

/-- `(player.bestTime || Infinity) < limit`: a missing best time — and,
by JavaScript falsiness, a stored best time of `0` — compares as
`Infinity` and fails the strict `<` test. -/
def bestTimeUnder (p : Player) (limit : Int) : Bool :=
  match p.bestTime with
  | none => false
  | some t => if t = 0 then false else decide (t < limit)

/-- `SimpleDB.getAchievementDefinitions()`, in object-key order.  All
counting conditions use `>=`; the two best-time conditions use strict
`<` (`bestTime < 30`, `bestTime < 15`); `early_bird` is always true. -/
def getAchievementDefinitions : List Achievement :=
  [ ⟨"first_game", fun p => decide (p.totalGames ≥ 1)⟩,
    ⟨"speed_demon", fun p => bestTimeUnder p 30⟩,
    ⟨"perfectionist", fun p => bestTimeUnder p 15⟩,
    ⟨"veteran", fun p => decide (p.totalGames ≥ 10)⟩,
    ⟨"dedicated", fun p => decide (p.totalGames ≥ 50)⟩,
    ⟨"legend", fun p => decide (p.totalGames ≥ 100)⟩,
    ⟨"streak_master", fun p => decide (p.currentStreak ≥ 5)⟩,
    ⟨"unstoppable", fun p => decide (p.currentStreak ≥ 10)⟩,
    ⟨"high_scorer", fun p => decide (p.score ≥ 500)⟩,
    ⟨"champion", fun p => decide (p.score ≥ 1000)⟩,
    ⟨"time_master", fun p => decide (p.totalPlayTime ≥ 3600)⟩,
    ⟨"early_bird", fun _ => true⟩ ]

/-- The loop body of `SimpleDB.checkAchievements`: walk the catalog in
order; for each entry whose id is not yet in the player's achievement
list and whose condition holds on the (fixed) stat snapshot, push the id
onto the achievement list and collect it as newly unlocked.  Returns the
final achievement list and the newly unlocked ids in catalog order. -/
def runAchievements : List Achievement → Player → List String →
    List String × List String
  | [], _, unlocked => (unlocked, [])
  | a :: rest, p, unlocked =>
    if a.id ∉ unlocked ∧ a.cond p = true then
      let r := runAchievements rest p (unlocked ++ [a.id])
      (r.1, a.id :: r.2)
    else
      runAchievements rest p unlocked

/-- `SimpleDB.checkAchievements(username)`: evaluates the catalog
against the player's current stats and *persists* every newly unlocked
id into `player.achievements` (followed by `saveData()` when anything
was unlocked); returns the newly unlocked entries.  The `unlockedAt`
timestamp attached to each returned entry is not modelled. -/
def checkAchievements (p : Player) : Player × List String :=
  let r := runAchievements getAchievementDefinitions p p.achievements
  ({ p with achievements := r.1 }, r.2)

/-- `SimpleDB.updateGameStats(username, gameTime, won)`:

```
player.totalGames = (player.totalGames || 0) + 1;
player.totalPlayTime = (player.totalPlayTime || 0) + gameTime;
player.lastPlayed = now;
if (won) \x7b
  player.currentStreak = (player.currentStreak || 0) + 1;
  player.maxStreak = Math.max(player.maxStreak || 0, player.currentStreak);
  if (!player.bestTime || gameTime < player.bestTime) player.bestTime = gameTime;
\x7d else \x7b player.currentStreak = 0; \x7d
```

then runs `checkAchievements` on the updated row.  Note `!player.bestTime`
is true both for a missing best time and for a stored best time of `0`
(JavaScript falsiness), so a stored `0` is overwritten by any win.
`applyGameStats` is the statistics mutation alone. -/
def applyGameStats (p : Player) (gameTime : Int) (won : Bool) (now : Int) :
    Player :=
  let p1 := { p with
    totalGames := p.totalGames + 1
    totalPlayTime := p.totalPlayTime + gameTime
    lastPlayed := some now }
  if won then
    let cs := p1.currentStreak + 1
    let pw := { p1 with currentStreak := cs, maxStreak := max p1.maxStreak cs }
    match pw.bestTime with
    | none => { pw with bestTime := some gameTime }
    | some t =>
      if t = 0 ∨ gameTime < t then { pw with bestTime := some gameTime } else pw
  else
    { p1 with currentStreak := 0 }

/-- `SimpleDB.updateGameStats`: the statistics mutation followed by the
`checkAchievements` run on the updated row; returns the updated player
and the newly unlocked achievement ids. -/
def updateGameStats (p : Player) (gameTime : Int) (won : Bool) (now : Int) :
    Player × List String :=
  checkAchievements (applyGameStats p gameTime won now)

/-- The commit path of an accepted score submission (the body of the
`submit score` handler after all validation gates):
`db.upsertPlayer(user, score, level)` followed by
`db.updateGameStats(user, gameTime, won)`.  Returns the updated player
row and the newly unlocked achievement ids. -/
def submitCommit (p : Player) (score : Int) (level : Option Int)
    (gameTime : Int) (won : Bool) (now : Int) : Player × List String :=
  updateGameStats (upsertPlayer p score level) gameTime won now

/-- One row of the `achievements` table used by the `SupabaseDB`
adapter (the class embedded in `supabase-reset-migration.sql`, which
`migrate-users.js` instantiates): id, condition type and threshold
(name, description, icon and points are not read by the unlock
logic). -/
structure SupaAchievement where
  id : String
  conditionType : String
  conditionValue : Int
deriving DecidableEq

/-- The seeded `achievements` rows (`supabase-schema.sql`, the
`INSERT INTO achievements` block), in insertion order. -/
def supabaseAchievements : List SupaAchievement :=
  [ ⟨"first_game", "total_games", 1⟩,
    ⟨"speed_demon", "best_time", 30⟩,
    ⟨"perfectionist", "best_time", 15⟩,
    ⟨"veteran", "total_games", 10⟩,
    ⟨"dedicated", "total_games", 50⟩,
    ⟨"legend", "total_games", 100⟩,
    ⟨"streak_master", "current_streak", 5⟩,
    ⟨"unstoppable", "current_streak", 10⟩,
    ⟨"high_scorer", "score", 500⟩,
    ⟨"champion", "score", 1000⟩,
    ⟨"time_master", "total_play_time", 3600⟩,
    ⟨"early_bird", "created", 1⟩ ]

/-- `SupabaseDB.checkAchievementCondition(achievement, userStats)`:
`>=` against the threshold for the counting types,
`!!(best_time && best_time <= value)` for `best_time` (a missing
best time and the JavaScript-falsy `0` fail; the comparison is `<=`),
`created` always true, unknown types false. -/
def checkAchievementCondition (a : SupaAchievement) (u : Player) : Bool :=
  if a.conditionType = "total_games" then decide (u.totalGames ≥ a.conditionValue)
  else if a.conditionType = "score" then decide (u.score ≥ a.conditionValue)
  else if a.conditionType = "best_time" then
    match u.bestTime with
    | none => false
    | some t => if t = 0 then false else decide (t ≤ a.conditionValue)
  else if a.conditionType = "current_streak" then
    decide (u.currentStreak ≥ a.conditionValue)
  else if a.conditionType = "total_play_time" then
    decide (u.totalPlayTime ≥ a.conditionValue)
  else if a.conditionType = "created" then true
  else false

/-- `SupabaseDB.checkAchievements(userId)`: reads the user's stats, the
catalog and the already-unlocked id set (a snapshot taken before the
loop), then inserts every satisfied, not-yet-unlocked entry into
`user_achievements` and returns those entries.  The unlocked-id set of
the two-table schema is modelled as the `achievements` list on the
player row; the catalog ids are unique, so the snapshot set and a
growing set are equivalent here. -/
def supaCheckAchievements (p : Player) : Player × List String :=
  let newIds := (supabaseAchievements.filter
    (fun a => a.id ∉ p.achievements ∧ checkAchievementCondition a p = true)).map
      (fun a => a.id)
  ({ p with achievements := p.achievements ++ newIds }, newIds)

/-- `SupabaseDB.upsertPlayer(username, score, level)`: overwrites
`score` and `level` *unconditionally* (no max / strictly-higher check,
in contrast to the `SimpleDB` variant above). -/
def supaUpsertPlayer (p : Player) (score level : Int) : Player :=
  { p with score := score, level := level }

/-- The statistics update of `SupabaseDB.updateGameStats`:

```
newTotalGames = (total_games || 0) + 1;
newTotalPlayTime = (total_play_time || 0) + gameTime;
newCurrentStreak = won ? (current_streak || 0) + 1 : 0;
newMaxStreak = Math.max(max_streak || 0, newCurrentStreak);
newBestTime = won && (!best_time || gameTime < best_time)
  ? gameTime : best_time;
```

with the same `!best_time` falsiness as `SimpleDB`: a stored best time
of `0` counts as unset. -/
def supaApplyGameStats (p : Player) (gameTime : Int) (won : Bool)
    (now : Int) : Player :=
  let newCurrentStreak := if won then p.currentStreak + 1 else 0
  let bestStale : Bool :=
    match p.bestTime with
    | none => true
    | some t => decide (t = 0) || decide (gameTime < t)
  { p with
    totalGames := p.totalGames + 1
    totalPlayTime := p.totalPlayTime + gameTime
    currentStreak := newCurrentStreak
    maxStreak := max p.maxStreak newCurrentStreak
    bestTime := if won && bestStale then some gameTime else p.bestTime
    lastPlayed := some now }

/-- `SupabaseDB.updateGameStats(username, gameTime, won)`: the stats
update followed by the achievement check (it also inserts a
`game_sessions` row, which carries no player-row state and is not
modelled). -/
def supaUpdateGameStats (p : Player) (gameTime : Int) (won : Bool)
    (now : Int) : Player × List String :=
  supaCheckAchievements (supaApplyGameStats p gameTime won now)

/-- Per-connection session state (`io.on('connection')` in `server.js`):
`socket.currentUser` / `socket.userId` / `socket.isAuthenticated` are
the authentication binding, `socket.lastMessages` the sliding chat
rate-limit window, `socket.lastScoreSubmit` the score rate gate
(`none` models an unset property). -/
structure Socket where
  currentUser : Option String
  userId : Option Int
  isAuthenticated : Bool
  lastMessages : List Int
  lastScoreSubmit : Option Int
deriving DecidableEq

/-- The fresh connection state (`socket.currentUser = null;
socket.isAuthenticated = false;`, the other properties unset). -/
def freshSocket : Socket :=
  { currentUser := none, userId := none, isAuthenticated := false
    lastMessages := [], lastScoreSubmit := none }

/-- The payload carried by a verified JWT (`decoded.username`,
`decoded.userId`). -/
structure TokenPayload where
  username : String
  userId : Int
deriving DecidableEq

/-- Events emitted towards clients (`socket.emit` / `io.emit` /
`socket.broadcast.emit`). -/
inductive Event where
  | authError (msg : String)
  | chatToSelf (user text : String)
  | chatBroadcast (user text : String)
  | syncScore (score : Int)
  | syncEnergy (r : EnergyResult)
  | energyError (msg : String)
  | newAchievements (ids : List String)
  | updateLeaderboard
deriving DecidableEq

/-- Calls into the player store made by a handler, in call order. -/
inductive StorageCall where
  | findPlayer (user : String)
  | upsertPlayer (user : String) (score : Int)
  | updateGameStats (user : String) (gameTime : Int) (won : Bool)
  | updatePlayerEnergy (user : String) (change : Int)
  | getPlayerEnergy (user : String)
  | getLeaderboard (n : Int)
deriving DecidableEq

/-- Result of running one socket event handler: the session state and
the acting player's stored row afterwards, plus the storage calls made
and the events emitted. -/
structure HandlerResult where
  sock : Socket
  player : Player
  calls : List StorageCall
  emits : List Event
deriving DecidableEq

/-- The `'join game'` handler (`server.js` lines 398-420 and
`migrate-users.js` lines 397-421, identical in their authentication
logic): a missing token or a failed `db.verifyToken` emits `auth_error`
and leaves the session unchanged; a verified token unconditionally
(re)binds `socket.currentUser`, `socket.userId` and
`socket.isAuthenticated` — there is no check of the current
authentication state.  Token verification is the external capability
`verify`; `token = none` models a payload without a token.  The
follow-up `finalizeJoin` (system chat broadcast, score/energy sync,
leaderboard push) never touches the authentication binding and is not
modelled here. -/
def joinGame (verify : String → Option TokenPayload) (sock : Socket)
    (token : Option String) : Socket × List Event :=
  match token with
  | none => (sock, [.authError "Authentication token required"])
  | some t =>
    match verify t with
    | none => (sock, [.authError "Invalid or expired token"])
    | some d =>
      ({ sock with
          currentUser := some d.username
          userId := some d.userId
          isAuthenticated := true }, [])

/-- `validator.isValidScore` (`utils/validator.js` / `server.js`):
`Number.isInteger(score) && score >= 0 && score <= 1000000`.  A payload
value that is not an integer is modelled as `none`. -/
def isValidScore : Option Int → Bool
  | none => false
  | some s => decide (0 ≤ s) && decide (s ≤ 1000000)

/-- `validator.isValidGameTime`: `Number.isInteger(time) && time >= 0 &&
time <= 3600`. -/
def isValidGameTime : Option Int → Bool
  | none => false
  | some t => decide (0 ≤ t) && decide (t ≤ 3600)

/-- `'submit score'` payload `\x7b score, level, gameTime, won \x7d`;
`none` models a missing or wrongly-typed field (`server.js` ignores the
`level` field entirely). -/
structure ScoreData where
  score : Option Int
  level : Option Int
  gameTime : Option Int
  won : Option Bool
deriving DecidableEq

/-- The score-submission rate gate shared by both servers:
`socket.lastScoreSubmit && now - socket.lastScoreSubmit < 5000`. -/
def scoreRateLimited (lastScoreSubmit : Option Int) (now : Int) : Bool :=
  match lastScoreSubmit with
  | none => false
  | some t => decide (now - t < 5000)

/-- The `'chat message'` handler of `server.js` (lines 453-478).
`sanitize` is `validator.sanitizeString` (an external pure helper);
`msg = none` models a non-string payload.  The handler never touches
the store in this variant; it emits either a rate-limit notice to the
sender or the broadcast chat message. -/
def onChatMessage (sanitize : String → String) (sock : Socket) (p : Player)
    (now : Int) (msg : Option String) : HandlerResult :=
  if sock.currentUser = none ∨ sock.isAuthenticated = false then
    ⟨sock, p, [], []⟩
  else
    match msg with
    | none => ⟨sock, p, [], []⟩
    | some m =>
      let cleanMsg := sanitize m
      if cleanMsg.length = 0 ∨ cleanMsg.length > 500 then ⟨sock, p, [], []⟩
      else
        let lastMessages := sock.lastMessages.filter (fun t => now - t < 10000)
        if lastMessages.length ≥ 5 then
          ⟨{ sock with lastMessages := lastMessages }, p, [],
            [.chatToSelf "System" "Rate limit exceeded. Please slow down."]⟩
        else
          ⟨{ sock with lastMessages := lastMessages ++ [now] }, p, [],
            [.chatBroadcast (sock.currentUser.getD "") cleanMsg]⟩

/-- The `'submit score'` handler of `server.js` (lines 481-531): guard,
score/time/won validation, the time-based anti-cheat gate
`gameTime > 0 && score > gameTime * 10 + 100` (which *rejects*), the
5-second rate gate, then `upsertPlayer` (with `''` in the level
position), `updateGameStats`, a `new achievements` emit when anything
unlocked, and `updateLeaderboard()` (= `getLeaderboard(10)` plus an
`update leaderboard` broadcast). -/
def onSubmitScore (sock : Socket) (p : Player) (now : Int)
    (data : ScoreData) : HandlerResult :=
  if sock.currentUser = none ∨ sock.isAuthenticated = false then
    ⟨sock, p, [], []⟩
  else
    match data.score, data.gameTime, data.won with
    | some score, some gameTime, some won =>
      if ¬ (0 ≤ score ∧ score ≤ 1000000) then ⟨sock, p, [], []⟩
      else if ¬ (0 ≤ gameTime ∧ gameTime ≤ 3600) then ⟨sock, p, [], []⟩
      else if gameTime > 0 ∧ score > gameTime * 10 + 100 then ⟨sock, p, [], []⟩
      else if scoreRateLimited sock.lastScoreSubmit now then ⟨sock, p, [], []⟩
      else
        let user := sock.currentUser.getD ""
        let sock1 := { sock with lastScoreSubmit := some now }
        let p1 := upsertPlayer p score none
        let r := updateGameStats p1 gameTime won now
        ⟨sock1, r.1,
          [.upsertPlayer user score, .updateGameStats user gameTime won,
            .getLeaderboard 10],
          (if r.2.length > 0 then [.newAchievements r.2] else []) ++
            [.updateLeaderboard]⟩
    | _, _, _ => ⟨sock, p, [], []⟩

/-- The `'submit score'` handler of `migrate-users.js` (lines 575-645):
same guard and score/time/won validation, plus a level validation
(`Number.isInteger(level) && 1 <= level <= 1000`); the level-scaled
anti-cheat check `score > level * 150 + 500` only logs a warning — its
`return` is commented out (`// return; // Don't block for now, just
log`) — so the submission proceeds to the rate gate and the commit.
This server's `db` is the `SupabaseDB` adapter (the class embedded in
`supabase-reset-migration.sql`), so the commit is
`SupabaseDB.upsertPlayer(user, score, level)` (unconditional score and
level overwrite) followed by `SupabaseDB.updateGameStats`, the
achievements emit, and the forced `updateLeaderboard(true)` =
`getLeaderboard(10)` plus an `update leaderboard` broadcast. -/
def onSubmitScoreMigrate (sock : Socket) (p : Player) (now : Int)
    (data : ScoreData) : HandlerResult :=
  if sock.currentUser = none ∨ sock.isAuthenticated = false then
    ⟨sock, p, [], []⟩
  else
    match data.score, data.gameTime, data.won, data.level with
    | some score, some gameTime, some won, some level =>
      if ¬ (0 ≤ score ∧ score ≤ 1000000) then ⟨sock, p, [], []⟩
      else if ¬ (0 ≤ gameTime ∧ gameTime ≤ 3600) then ⟨sock, p, [], []⟩
      else if ¬ (1 ≤ level ∧ level ≤ 1000) then ⟨sock, p, [], []⟩
      else if scoreRateLimited sock.lastScoreSubmit now then ⟨sock, p, [], []⟩
      else
        let user := sock.currentUser.getD ""
        let sock1 := { sock with lastScoreSubmit := some now }
        let p1 := supaUpsertPlayer p score level
        let r := supaUpdateGameStats p1 gameTime won now
        ⟨sock1, r.1,
          [.upsertPlayer user score, .updateGameStats user gameTime won,
            .getLeaderboard 10],
          (if r.2.length > 0 then [.newAchievements r.2] else []) ++
            [.updateLeaderboard]⟩
    | _, _, _, _ => ⟨sock, p, [], []⟩

/-- The `'use energy'` handler (`server.js` lines 534-561,
`migrate-users.js` lines 648-676, identical): guard, amount validation
(`Number.isInteger(amount) && 0 < amount <= 100`), the fixed-cost check
`amount === GAME_ENERGY_COST`, then
`db.updatePlayerEnergy(user, -amount)`, a `sync energy` emit, and an
`energy error` emit when the *post-deduction* amount is below the game
cost. -/
def onUseEnergy (sock : Socket) (p : Player) (now : Int)
    (amount : Option Int) : HandlerResult :=
  if sock.currentUser = none ∨ sock.isAuthenticated = false then
    ⟨sock, p, [], []⟩
  else
    match amount with
    | none => ⟨sock, p, [], []⟩
    | some a =>
      if a ≤ 0 ∨ a > 100 then ⟨sock, p, [], []⟩
      else if a ≠ gameEnergyCost then ⟨sock, p, [], []⟩
      else
        let user := sock.currentUser.getD ""
        let r := updatePlayerEnergy p now (-a)
        ⟨sock, r.1, [.updatePlayerEnergy user (-a)],
          [.syncEnergy r.2] ++
            (if r.2.energy < gameEnergyCost then
              [.energyError "Insufficient energy"] else [])⟩

/-- The `'check energy'` handler (`server.js` lines 564-575): guard,
then `db.getPlayerEnergy(user)` and a `sync energy` emit. -/
def onCheckEnergy (sock : Socket) (p : Player) (now : Int) : HandlerResult :=
  if sock.currentUser = none ∨ sock.isAuthenticated = false then
    ⟨sock, p, [], []⟩
  else
    let user := sock.currentUser.getD ""
    let r := getPlayerEnergy p now
    ⟨sock, r.1, [.getPlayerEnergy user], [.syncEnergy r.2]⟩

/-- One iteration of the 60-second background energy sweep
(`server.js` lines 592-613) for one connected socket: authenticated
sockets get `getPlayerEnergy` re-applied; a `sync energy` update and a
system chat notice are pushed only when `energyAdded > 0`. -/
def energySweepStep (sock : Socket) (p : Player) (now : Int) :
    Player × List Event :=
  if sock.currentUser ≠ none ∧ sock.isAuthenticated = true then
    let r := getPlayerEnergy p now
    (r.1,
      if r.2.energyAdded > 0 then
        [.syncEnergy r.2, .chatToSelf "System" "Energy regenerated!"]
      else [])
  else (p, [])

/-- A registered player row in its initial shape (`registerUser` fields
with a nonzero creation timestamp), used as the concrete input of the
closed instances below. -/
def basePlayer : Player :=
  { score := 0, level := 1, energy := 100, lastEnergyUpdate := 1000000
    totalGames := 0, totalPlayTime := 0, currentStreak := 0, maxStreak := 0
    bestTime := none, lastPlayed := none, achievements := [] }

/-- A connection that completed `'join game'` as player `alice`. -/
def aliceSock : Socket :=
  { currentUser := some "alice", userId := some 1, isAuthenticated := true
    lastMessages := [], lastScoreSubmit := none }

/-- A concrete token verifier for closed instances: `"tokB"` verifies
as player `bob`, everything else fails. -/
def verifyTokB : String → Option TokenPayload :=
  fun t => if t = "tokB" then some ⟨"bob", 2⟩ else none

/-! ## Theorems -/

/-- Unfolded form of the energy update: amount, reported units added and
reported `nextEnergyIn`, with `Int.fdiv`/`Int.tmod` rewritten to
Euclidean `/`/`%` (legal because both divisors are positive and, for
`tmod`, because the dividend is taken nonnegative). -/
theorem updatePlayerEnergy_eval (p : Player) (now ch : Int) :
    (updatePlayerEnergy p now ch).1.energy =
      max 0 (min 100 ((if p.energy = 0 then 100 else p.energy) +
        Int.fdiv (Int.fdiv (now - p.lastEnergyUpdate) 60000) 5 + ch)) ∧
    (updatePlayerEnergy p now ch).1.lastEnergyUpdate = now ∧
    (updatePlayerEnergy p now ch).2.energy = (updatePlayerEnergy p now ch).1.energy ∧
    (updatePlayerEnergy p now ch).2.energyAdded =
      Int.fdiv (Int.fdiv (now - p.lastEnergyUpdate) 60000) 5 ∧
    (updatePlayerEnergy p now ch).2.nextEnergyIn =
      5 - Int.tmod (Int.fdiv (now - p.lastEnergyUpdate) 60000) 5 := by
  refine ⟨rfl, rfl, rfl, rfl, rfl⟩

/-- C9: the stored energy amount is clamped into `[0, maxEnergy]` by
every `updatePlayerEnergy`, hence after every energy operation of the
core: the regeneration catch-up and background-sweep read
(`getPlayerEnergy` = `updatePlayerEnergy` with change `0`) and the spend
path (`'use energy'` passes change `-amount`). -/
theorem energy_amount_always_clamped (p : Player) (now ch : Int) :
    0 ≤ (updatePlayerEnergy p now ch).1.energy ∧
    (updatePlayerEnergy p now ch).1.energy ≤ maxEnergy := by
  have h := (updatePlayerEnergy_eval p now ch).1
  rw [h, maxEnergy]
  constructor <;> omega

/-- C2 counterexample: for the spec's own scenario (`amount = 40`,
regeneration read 12 minutes after the last update, 5-minute interval)
the code yields `amount = 42` and `energyAdded = 2` as the claim says,
but reports `nextEnergyIn = 3` — the field counts *minutes*
(`regenMinutes - (minutesPassed % regenMinutes)`), not the claimed 180
seconds. -/
theorem regen_reports_minutes_counterexample :
    (updatePlayerEnergy { basePlayer with energy := 40 } 1720000 0).2.energy = 42 ∧
    (updatePlayerEnergy { basePlayer with energy := 40 } 1720000 0).2.energyAdded = 2 ∧
    (updatePlayerEnergy { basePlayer with energy := 40 } 1720000 0).2.nextEnergyIn = 3 ∧
    (updatePlayerEnergy { basePlayer with energy := 40 } 1720000 0).2.nextEnergyIn ≠ 180 := by
  decide

/-- C2 amended: for every stored state with a positive (JavaScript
truthy) amount and `now ≥ lastUpdateTimestamp`, regeneration adds
exactly `floor((now - lastUpdateTimestamp) / interval)` units (the
minute-floor composed with the interval-floor equals one floor by the
5-minute interval `300000` ms), clamps the new amount at the cap `100`,
and reports `nextEnergyIn = 5 - (elapsedMinutes mod 5)` measured in
minutes (not seconds): the scenario of the claim yields `42` energy and
`nextEnergyIn = 3`. -/
theorem regen_adds_floor_intervals (p : Player) (now : Int)
    (h1 : p.lastEnergyUpdate ≤ now) (h2 : 0 < p.energy) :
    (getPlayerEnergy p now).2.energyAdded = (now - p.lastEnergyUpdate) / 300000 ∧
    (getPlayerEnergy p now).2.energy =
      min 100 (p.energy + (now - p.lastEnergyUpdate) / 300000) ∧
    (getPlayerEnergy p now).2.nextEnergyIn =
      5 - ((now - p.lastEnergyUpdate) / 60000) % 5 := by
  obtain ⟨he, -, he2, ha, hn⟩ := updatePlayerEnergy_eval p now 0
  rw [getPlayerEnergy] at *
  rw [ha, he2, he, hn, if_neg (by omega),
    Int.fdiv_eq_ediv _ (by norm_num : (0:Int) ≤ 60000),
    Int.fdiv_eq_ediv _ (by norm_num : (0:Int) ≤ 5),
    Int.tmod_eq_emod (Int.ediv_nonneg (by omega) (by norm_num)) (by norm_num)]
  refine ⟨by omega, by omega, rfl⟩

/-- C2 witness: the amended statement at the spec's scenario input. -/
theorem regen_adds_floor_intervals_witness :
    (getPlayerEnergy { basePlayer with energy := 40 } 1720000).2.energyAdded =
      (1720000 - 1000000) / 300000 ∧
    (getPlayerEnergy { basePlayer with energy := 40 } 1720000).2.energy =
      min 100 (40 + (1720000 - 1000000) / 300000) ∧
    (getPlayerEnergy { basePlayer with energy := 40 } 1720000).2.nextEnergyIn =
      5 - ((1720000 - 1000000) / 60000) % 5 :=
  regen_adds_floor_intervals { basePlayer with energy := 40 } 1720000
    (by decide) (by decide)

/-- C3 counterexample: with the clock skewed 10 minutes backwards
(`now < lastUpdateTimestamp`) the code computes a *negative*
`energyAdded = -2` and the stored amount drops from `50` to `48`:
there is no defensive clamp of elapsed time to zero. -/
theorem regen_clock_skew_counterexample :
    (updatePlayerEnergy { basePlayer with energy := 50 } 400000 0).2.energyAdded = -2 ∧
    (updatePlayerEnergy { basePlayer with energy := 50 } 400000 0).1.energy = 48 ∧
    (48 : Int) < 50 := by
  decide

/-- C3 amended: with `now < lastUpdateTimestamp` there is no defensive
clamp of elapsed time to zero: regeneration computes a strictly
negative `energyAdded` (the floor of the negative elapsed minutes
divided by the interval).  For a truthy (nonzero) stored amount the
stored amount therefore never increases under skew — it can decrease —
and the overall clamp keeps it at `0` or above.  A stored amount of
exactly `0`, however (reachable via the spend clamp), is
JavaScript-falsy and is replaced by `initialEnergy = 100` before the
negative units are applied, so under skew a zero balance jumps up
towards the cap. -/
theorem regen_clock_skew_subtracts (p : Player) (now : Int)
    (h1 : now < p.lastEnergyUpdate) :
    (getPlayerEnergy p now).2.energyAdded < 0 ∧
    0 ≤ (getPlayerEnergy p now).1.energy ∧
    (0 < p.energy → (getPlayerEnergy p now).1.energy ≤ p.energy) ∧
    (p.energy = 0 → (getPlayerEnergy p now).1.energy =
      max 0 (min 100 (100 + (getPlayerEnergy p now).2.energyAdded))) := by
  obtain ⟨he, -, -, ha, -⟩ := updatePlayerEnergy_eval p now 0
  rw [getPlayerEnergy] at *
  rw [Int.fdiv_eq_ediv _ (by norm_num : (0:Int) ≤ 60000),
    Int.fdiv_eq_ediv _ (by norm_num : (0:Int) ≤ 5)] at he ha
  refine ⟨?_, ?_, ?_, ?_⟩
  · rw [ha]
    omega
  · by_cases hz : p.energy = 0
    · rw [he, if_pos hz]
      omega
    · rw [he, if_neg hz]
      omega
  · intro h2
    rw [he, if_neg (by omega)]
    omega
  · intro hz
    rw [ha, he, if_pos hz]
    omega

/-- C3 witness: the amended statement at the concrete skewed input
(`energy = 50`, clock 10 minutes behind the stored timestamp). -/
theorem regen_clock_skew_subtracts_witness :
    (getPlayerEnergy { basePlayer with energy := 50 } 400000).2.energyAdded < 0 ∧
    0 ≤ (getPlayerEnergy { basePlayer with energy := 50 } 400000).1.energy ∧
    (0 < ({ basePlayer with energy := 50 } : Player).energy →
      (getPlayerEnergy { basePlayer with energy := 50 } 400000).1.energy ≤
        ({ basePlayer with energy := 50 } : Player).energy) ∧
    (({ basePlayer with energy := 50 } : Player).energy = 0 →
      (getPlayerEnergy { basePlayer with energy := 50 } 400000).1.energy =
        max 0 (min 100
          (100 + (getPlayerEnergy { basePlayer with energy := 50 }
            400000).2.energyAdded))) :=
  regen_clock_skew_subtracts { basePlayer with energy := 50 } 400000
    (by decide)

/-- C1 counterexample: a player whose regenerated amount is `5` (less
than the fixed game cost `10`) spends via `'use energy'`: the stored
amount is *not* left unchanged — the deduction is applied anyway and
clamped at `0` — and the `energy error` is emitted only after the
debit. -/
theorem spend_insufficient_counterexample :
    (onUseEnergy aliceSock { basePlayer with energy := 5 } 1001000
        (some 10)).player.energy = 0 ∧
    (onUseEnergy aliceSock { basePlayer with energy := 5 } 1001000
        (some 10)).player.energy ≠ 5 ∧
    Event.energyError "Insufficient energy" ∈
      (onUseEnergy aliceSock { basePlayer with energy := 5 } 1001000
        (some 10)).emits := by
  decide

/-- C1 amended: the `'use energy'` path validates that the requested
cost equals the fixed game cost, then debits *unconditionally* in a
single clamped update
`newAmount = max(0, min(cap, amount + regenUnits - cost))`; an
insufficient balance is clamped to `0` (not left unchanged) and the
`energy error` notice is emitted exactly when the post-deduction amount
is below the cost.  The stored amount never becomes negative; when the
regenerated amount covers the cost and stays under the cap, the result
is exactly the regenerated amount minus the cost. -/
theorem spend_debits_unconditionally (p : Player) (now : Int)
    (h1 : p.lastEnergyUpdate ≤ now) (h2 : 0 < p.energy) :
    (onUseEnergy aliceSock p now (some 10)).player.energy =
      max 0 (min 100 (p.energy + (now - p.lastEnergyUpdate) / 300000 - 10)) ∧
    0 ≤ (onUseEnergy aliceSock p now (some 10)).player.energy ∧
    ((onUseEnergy aliceSock p now (some 10)).player.energy < 10 ↔
      Event.energyError "Insufficient energy" ∈
        (onUseEnergy aliceSock p now (some 10)).emits) := by
  obtain ⟨he, -, he2, -, -⟩ := updatePlayerEnergy_eval p now (-10)
  have hdiv : Int.fdiv (Int.fdiv (now - p.lastEnergyUpdate) 60000) 5 =
      (now - p.lastEnergyUpdate) / 300000 := by
    rw [Int.fdiv_eq_ediv _ (by norm_num : (0:Int) ≤ 60000),
      Int.fdiv_eq_ediv _ (by norm_num : (0:Int) ≤ 5)]
    omega
  rw [hdiv, if_neg (by omega)] at he
  have hres : onUseEnergy aliceSock p now (some 10) =
      ⟨aliceSock, (updatePlayerEnergy p now (-10)).1,
        [.updatePlayerEnergy "alice" (-10)],
        .syncEnergy (updatePlayerEnergy p now (-10)).2 ::
          (if (updatePlayerEnergy p now (-10)).2.energy < 10 then
            [.energyError "Insufficient energy"] else [])⟩ := rfl
  rw [hres]
  refine ⟨?_, ?_, ?_⟩
  · show (updatePlayerEnergy p now (-10)).1.energy = _
    rw [he]; omega
  · show 0 ≤ (updatePlayerEnergy p now (-10)).1.energy
    rw [he]; omega
  · show (updatePlayerEnergy p now (-10)).1.energy < 10 ↔
      Event.energyError "Insufficient energy" ∈
        Event.syncEnergy (updatePlayerEnergy p now (-10)).2 ::
          (if (updatePlayerEnergy p now (-10)).2.energy < 10 then
            [Event.energyError "Insufficient energy"] else [])
    rw [← he2]
    by_cases hlt : (updatePlayerEnergy p now (-10)).2.energy < 10
    · simp [hlt]
    · simp [hlt]

/-- C1 witness: the amended statement at the insufficient-balance
input (`amount = 5`, cost `10`). -/
theorem spend_debits_unconditionally_witness :
    (onUseEnergy aliceSock { basePlayer with energy := 5 } 1001000
        (some 10)).player.energy =
      max 0 (min 100 (5 + (1001000 - 1000000) / 300000 - 10)) ∧
    0 ≤ (onUseEnergy aliceSock { basePlayer with energy := 5 } 1001000
        (some 10)).player.energy ∧
    ((onUseEnergy aliceSock { basePlayer with energy := 5 } 1001000
        (some 10)).player.energy < 10 ↔
      Event.energyError "Insufficient energy" ∈
        (onUseEnergy aliceSock { basePlayer with energy := 5 } 1001000
          (some 10)).emits) :=
  spend_debits_unconditionally { basePlayer with energy := 5 } 1001000
    (by decide) (by decide)

/-- C4: `updatePlayerEnergy` always overwrites `lastEnergyUpdate` with
the current time, even when zero units were added; consequently any
second call less than one regeneration interval (5 minutes = 300000 ms)
after a first call reports `energyAdded = 0`, and the 60-second
background sweep pushes nothing for such a player. -/
theorem regen_timestamp_always_overwritten (p : Player) (ch1 now1 now2 : Int)
    (h1 : now1 ≤ now2) (h2 : now2 - now1 < 300000) (sock : Socket) :
    (updatePlayerEnergy p now1 ch1).1.lastEnergyUpdate = now1 ∧
    (getPlayerEnergy ((updatePlayerEnergy p now1 ch1).1) now2).2.energyAdded = 0 ∧
    (energySweepStep sock ((updatePlayerEnergy p now1 ch1).1) now2).2 = [] := by
  have hts : (updatePlayerEnergy p now1 ch1).1.lastEnergyUpdate = now1 := rfl
  have hadd :
      (getPlayerEnergy ((updatePlayerEnergy p now1 ch1).1) now2).2.energyAdded = 0 := by
    have ha := (updatePlayerEnergy_eval ((updatePlayerEnergy p now1 ch1).1) now2 0).2.2.2.1
    rw [getPlayerEnergy, ha, hts,
      Int.fdiv_eq_ediv _ (by norm_num : (0:Int) ≤ 60000),
      Int.fdiv_eq_ediv _ (by norm_num : (0:Int) ≤ 5)]
    omega
  refine ⟨hts, hadd, ?_⟩
  unfold energySweepStep
  split
  · simp [hadd]
  · rfl

/-- C4 witness: a second read 60 seconds after an update (the sweep
cadence) regenerates nothing. -/
theorem regen_timestamp_always_overwritten_witness :
    (updatePlayerEnergy basePlayer 2000000 0).1.lastEnergyUpdate = 2000000 ∧
    (getPlayerEnergy ((updatePlayerEnergy basePlayer 2000000 0).1) 2060000).2.energyAdded = 0 ∧
    (energySweepStep aliceSock ((updatePlayerEnergy basePlayer 2000000 0).1) 2060000).2 = [] :=
  regen_timestamp_always_overwritten basePlayer 0 2000000 2060000
    (by decide) (by decide) aliceSock

/-- C6 counterexample: a handle already authenticated as `alice`
performs a second `'join game'` with a valid token for `bob`: the
attempt is *not* rejected (no `auth_error`, no event at all) and the
bound identity changes to `bob`. -/
theorem join_rebinding_counterexample :
    aliceSock.isAuthenticated = true ∧
    (joinGame verifyTokB aliceSock (some "tokB")).1.currentUser = some "bob" ∧
    (joinGame verifyTokB aliceSock (some "tokB")).1.currentUser ≠ some "alice" ∧
    (joinGame verifyTokB aliceSock (some "tokB")).2 = [] := by
  decide

/-- C6 amended: the `'join game'` handler never inspects the current
authentication state: any attempt whose token verifies is accepted and
(re)binds the handle's identity to the token's identity, emitting no
error; only attempts with a missing or invalid token are rejected (with
`auth_error`), and those leave the binding unchanged. -/
theorem join_always_rebinds (verify : String → Option TokenPayload)
    (sock : Socket) (t : String) (d : TokenPayload)
    (h : verify t = some d) :
    (joinGame verify sock (some t)).1.currentUser = some d.username ∧
    (joinGame verify sock (some t)).1.isAuthenticated = true ∧
    (joinGame verify sock (some t)).2 = [] ∧
    (joinGame verify sock none).1 = sock ∧
    (∀ t2, verify t2 = none → (joinGame verify sock (some t2)).1 = sock) := by
  refine ⟨?_, ?_, ?_, rfl, ?_⟩
  · rw [joinGame, h]
  · rw [joinGame, h]
  · rw [joinGame, h]
  · intro t2 h2
    rw [joinGame, h2]

/-- C6 witness: the amended statement at the concrete re-binding
input. -/
theorem join_always_rebinds_witness :
    (joinGame verifyTokB aliceSock (some "tokB")).1.currentUser =
      some (TokenPayload.mk "bob" 2).username ∧
    (joinGame verifyTokB aliceSock (some "tokB")).1.isAuthenticated = true ∧
    (joinGame verifyTokB aliceSock (some "tokB")).2 = [] ∧
    (joinGame verifyTokB aliceSock none).1 = aliceSock ∧
    (∀ t2, verifyTokB t2 = none →
      (joinGame verifyTokB aliceSock (some t2)).1 = aliceSock) :=
  join_always_rebinds verifyTokB aliceSock "tokB" ⟨"bob", 2⟩ (by decide)

/-- C7: every mutating event handler — `'chat message'`,
`'submit score'` (both server variants) and `'use energy'`, plus the
`'check energy'` read — invoked on a handle that is not authenticated
(`!socket.currentUser || !socket.isAuthenticated`) returns immediately:
the session and player state are unchanged, no storage call is made and
no event is emitted. -/
theorem unauthenticated_events_no_effects (sock : Socket) (p : Player)
    (now : Int) (sanitize : String → String) (msg : Option String)
    (data : ScoreData) (amount : Option Int)
    (h : sock.currentUser = none ∨ sock.isAuthenticated = false) :
    onChatMessage sanitize sock p now msg = ⟨sock, p, [], []⟩ ∧
    onSubmitScore sock p now data = ⟨sock, p, [], []⟩ ∧
    onSubmitScoreMigrate sock p now data = ⟨sock, p, [], []⟩ ∧
    onUseEnergy sock p now amount = ⟨sock, p, [], []⟩ ∧
    onCheckEnergy sock p now = ⟨sock, p, [], []⟩ := by
  refine ⟨?_, ?_, ?_, ?_, ?_⟩
  · rw [onChatMessage.eq_def, if_pos h]
  · rw [onSubmitScore, if_pos h]
  · rw [onSubmitScoreMigrate, if_pos h]
  · rw [onUseEnergy.eq_def, if_pos h]
  · rw [onCheckEnergy, if_pos h]

/-- C7 witness: a fresh (never-authenticated) connection attempting all
mutating events changes nothing and emits nothing. -/
theorem unauthenticated_events_no_effects_witness :
    onChatMessage id freshSocket basePlayer 1000000 (some "hello") =
      ⟨freshSocket, basePlayer, [], []⟩ ∧
    onSubmitScore freshSocket basePlayer 1000000
      ⟨some 100, some 1, some 30, some true⟩ = ⟨freshSocket, basePlayer, [], []⟩ ∧
    onSubmitScoreMigrate freshSocket basePlayer 1000000
      ⟨some 100, some 1, some 30, some true⟩ = ⟨freshSocket, basePlayer, [], []⟩ ∧
    onUseEnergy freshSocket basePlayer 1000000 (some 10) =
      ⟨freshSocket, basePlayer, [], []⟩ ∧
    onCheckEnergy freshSocket basePlayer 1000000 =
      ⟨freshSocket, basePlayer, [], []⟩ :=
  unauthenticated_events_no_effects freshSocket basePlayer 1000000 id
    (some "hello") ⟨some 100, some 1, some 30, some true⟩ (some 10)
    (Or.inl rfl)

/-- The final achievement list of the unlock loop is the starting list
with the newly unlocked ids appended. -/
theorem runAchievements_fst (cat : List Achievement) (p : Player)
    (u : List String) :
    (runAchievements cat p u).1 = u ++ (runAchievements cat p u).2 := by
  induction cat generalizing u with
  | nil => simp [runAchievements]
  | cons a rest ih =>
    by_cases h : a.id ∉ u ∧ a.cond p = true
    · simp only [runAchievements, if_pos h]
      rw [ih]
      simp
    · simp only [runAchievements, if_neg h]
      exact ih u

/-- Membership in the newly unlocked list: exactly the ids of catalog
entries whose condition holds and that were not already unlocked. -/
theorem runAchievements_mem (cat : List Achievement) (p : Player)
    (u : List String) (x : String) :
    x ∈ (runAchievements cat p u).2 ↔
      x ∉ u ∧ ∃ a ∈ cat, a.id = x ∧ a.cond p = true := by
  induction cat generalizing u with
  | nil => simp [runAchievements]
  | cons a rest ih =>
    by_cases h : a.id ∉ u ∧ a.cond p = true
    · simp only [runAchievements, if_pos h]
      constructor
      · intro hx
        rcases List.mem_cons.mp hx with rfl | hx
        · exact ⟨h.1, a, List.mem_cons_self a rest, rfl, h.2⟩
        · obtain ⟨hnu, b, hb, hbx, hbc⟩ := (ih _).mp hx
          exact ⟨fun hxu => hnu (List.mem_append_left _ hxu), b,
            List.mem_cons_of_mem _ hb, hbx, hbc⟩
      · rintro ⟨hnu, b, hb, hbx, hbc⟩
        rcases List.mem_cons.mp hb with rfl | hbr
        · exact List.mem_cons.mpr (Or.inl hbx.symm)
        · by_cases hxa : x = a.id
          · exact List.mem_cons.mpr (Or.inl hxa)
          · refine List.mem_cons.mpr (Or.inr ((ih _).mpr ⟨?_, b, hbr, hbx, hbc⟩))
            intro hmem
            rcases List.mem_append.mp hmem with h1 | h1
            · exact hnu h1
            · exact hxa (List.mem_singleton.mp h1)
    · simp only [runAchievements, if_neg h]
      rw [ih]
      rw [not_and_or, not_not] at h
      constructor
      · rintro ⟨hnu, b, hb, hbx, hbc⟩
        exact ⟨hnu, b, List.mem_cons_of_mem _ hb, hbx, hbc⟩
      · rintro ⟨hnu, b, hb, hbx, hbc⟩
        rcases List.mem_cons.mp hb with rfl | hbr
        · rcases h with h | h
          · exact absurd (hbx ▸ h) hnu
          · exact absurd hbc h
        · exact ⟨hnu, b, hbr, hbx, hbc⟩

/-- Every catalog entry whose condition holds ends up in the final
achievement list, whether it was there already or was just unlocked. -/
theorem runAchievements_cond_mem (cat : List Achievement) (p : Player)
    (u : List String) (a : Achievement) (ha : a ∈ cat)
    (hc : a.cond p = true) : a.id ∈ (runAchievements cat p u).1 := by
  rw [runAchievements_fst]
  by_cases h : a.id ∈ u
  · exact List.mem_append_left _ h
  · exact List.mem_append_right _
      ((runAchievements_mem cat p u a.id).mpr ⟨h, a, ha, rfl, hc⟩)

/-- If every satisfied catalog entry is already unlocked, the loop
unlocks nothing. -/
theorem runAchievements_already (cat : List Achievement) (p : Player)
    (v : List String) (hv : ∀ a ∈ cat, a.cond p = true → a.id ∈ v) :
    (runAchievements cat p v).2 = [] := by
  induction cat with
  | nil => simp [runAchievements]
  | cons a rest ih =>
    have h : ¬ (a.id ∉ v ∧ a.cond p = true) := by
      rintro ⟨h1, h2⟩
      exact h1 (hv a (List.mem_cons_self a rest) h2)
    simp only [runAchievements, if_neg h]
    exact ih (fun b hb hc => hv b (List.mem_cons_of_mem _ hb) hc)

/-- Every condition in the catalog reads only the stat fields, never
the achievement list. -/
theorem cond_ignores_achievements (a : Achievement)
    (ha : a ∈ getAchievementDefinitions) (p : Player) (l : List String) :
    a.cond { p with achievements := l } = a.cond p := by
  fin_cases ha <;> rfl

/-- C10 counterexample: `checkAchievements` is not side-effect-free on
stored player state — evaluating a one-game snapshot writes
`["first_game", "early_bird"]` into the stored achievement list — and
the best-time comparison is strict `<` rather than `<=`: a snapshot
with `bestTime = 30` does not unlock `speed_demon` (threshold 30). -/
theorem achievements_side_effect_counterexample :
    (checkAchievements { basePlayer with totalGames := 1 }).1.achievements =
      ["first_game", "early_bird"] ∧
    ({ basePlayer with totalGames := 1 } : Player).achievements = [] ∧
    (checkAchievements { basePlayer with totalGames := 1 }).1 ≠
      { basePlayer with totalGames := 1 } ∧
    ({ basePlayer with bestTime := some 30 } : Player).bestTime = some 30 ∧
    "speed_demon" ∉ (checkAchievements { basePlayer with bestTime := some 30 }).2 := by
  decide

/-- C10 amended: `checkAchievements` returns exactly the catalog
entries not already unlocked whose condition holds against the stat
snapshot (with strict `<` for the best-time conditions and `early_bird`
always true), and never returns an already-unlocked id twice across
repeated evaluations — but it achieves that by *persisting* the newly
unlocked ids into the stored achievement list (a side effect on stored
player state); the stat fields themselves are untouched. -/
theorem achievements_evaluation_characterization (p : Player) :
    (∀ x, x ∈ (checkAchievements p).2 ↔
      x ∉ p.achievements ∧
        ∃ a ∈ getAchievementDefinitions, a.id = x ∧ a.cond p = true) ∧
    (checkAchievements p).1.achievements =
      p.achievements ++ (checkAchievements p).2 ∧
    (checkAchievements ((checkAchievements p).1)).2 = [] ∧
    (checkAchievements p).1.totalGames = p.totalGames ∧
    (checkAchievements p).1.bestTime = p.bestTime ∧
    (checkAchievements p).1.score = p.score ∧
    (checkAchievements p).1.currentStreak = p.currentStreak ∧
    (checkAchievements p).1.totalPlayTime = p.totalPlayTime := by
  refine ⟨fun x => runAchievements_mem _ _ _ _,
    runAchievements_fst _ _ _, ?_, rfl, rfl, rfl, rfl, rfl⟩
  apply runAchievements_already
  intro a ha hc
  have hc' : a.cond p = true := by
    rw [← cond_ignores_achievements a ha p
      (runAchievements getAchievementDefinitions p p.achievements).1]
    exact hc
  exact runAchievements_cond_mem getAchievementDefinitions p p.achievements a ha hc'

/-- Field-level description of `upsertPlayer`: score raised via max,
level never lowered, all stat fields untouched. -/
theorem upsertPlayer_eval (p : Player) (s : Int) (l : Option Int) :
    (upsertPlayer p s l).score = max p.score s ∧
    p.level ≤ (upsertPlayer p s l).level ∧
    (upsertPlayer p s l).totalGames = p.totalGames ∧
    (upsertPlayer p s l).totalPlayTime = p.totalPlayTime ∧
    (upsertPlayer p s l).currentStreak = p.currentStreak ∧
    (upsertPlayer p s l).maxStreak = p.maxStreak ∧
    (upsertPlayer p s l).bestTime = p.bestTime ∧
    (upsertPlayer p s l).achievements = p.achievements := by
  rcases l with - | lv <;> simp only [upsertPlayer] <;> split_ifs <;>
    simp <;> omega

/-- Field-level description of the statistics mutation of
`updateGameStats`. -/
theorem applyGameStats_eval (p : Player) (gt : Int) (won : Bool) (now : Int) :
    (applyGameStats p gt won now).totalGames = p.totalGames + 1 ∧
    (applyGameStats p gt won now).totalPlayTime = p.totalPlayTime + gt ∧
    (applyGameStats p gt won now).score = p.score ∧
    (applyGameStats p gt won now).level = p.level ∧
    (applyGameStats p gt won now).achievements = p.achievements ∧
    (won = true → (applyGameStats p gt won now).currentStreak = p.currentStreak + 1 ∧
      (applyGameStats p gt won now).maxStreak = max p.maxStreak (p.currentStreak + 1)) ∧
    (won = false → (applyGameStats p gt won now).currentStreak = 0 ∧
      (applyGameStats p gt won now).maxStreak = p.maxStreak ∧
      (applyGameStats p gt won now).bestTime = p.bestTime) ∧
    (won = true → (applyGameStats p gt won now).bestTime =
      (match p.bestTime with
        | none => some gt
        | some t => if t = 0 ∨ gt < t then some gt else some t)) := by
  cases won <;> rcases hb : p.bestTime with - | t <;>
    simp only [applyGameStats, hb] <;> split_ifs <;> simp_all

/-- C8 counterexample: two accepted winning submissions through the
`'submit score'` handler — the first an instant win (`gameTime = 0`,
accepted by `isValidGameTime`), the second with `gameTime = 50` — raise
the stored `bestTime` from `some 0` to `some 50`: once set to `0`, the
best time is treated as unset (JavaScript `!bestTime`) and is
overwritten upwards. -/
theorem best_time_raised_counterexample :
    isValidGameTime (some 0) = true ∧
    (onSubmitScoreMigrate aliceSock basePlayer 2000000
        ⟨some 0, some 1, some 0, some true⟩).player.bestTime = some 0 ∧
    (onSubmitScoreMigrate
        (onSubmitScoreMigrate aliceSock basePlayer 2000000
          ⟨some 0, some 1, some 0, some true⟩).sock
        (onSubmitScoreMigrate aliceSock basePlayer 2000000
          ⟨some 0, some 1, some 0, some true⟩).player
        3000000 ⟨some 0, some 1, some 50, some true⟩).player.bestTime =
      some 50 := by
  decide

/-- C8 amended: across accepted commits, `bestScore` is raised via max
and `level` never lowered, `totalGames` and `totalPlayTime` accumulate,
a win increments the streak and tracks `maxStreak` via max, a loss
resets the streak and leaves `bestTime` alone — and a win lowers a
*nonzero* stored `bestTime` via min; a stored `bestTime` of `0` is
treated as unset by the JavaScript falsiness test and can be
overwritten upwards. -/
theorem commit_stats_monotonic (p : Player) (score : Int)
    (level : Option Int) (gameTime : Int) (won : Bool) (now : Int) :
    (submitCommit p score level gameTime won now).1.score = max p.score score ∧
    p.level ≤ (submitCommit p score level gameTime won now).1.level ∧
    (submitCommit p score level gameTime won now).1.totalGames = p.totalGames + 1 ∧
    (submitCommit p score level gameTime won now).1.totalPlayTime =
      p.totalPlayTime + gameTime ∧
    p.maxStreak ≤ (submitCommit p score level gameTime won now).1.maxStreak ∧
    (won = true →
      (submitCommit p score level gameTime won now).1.currentStreak =
        p.currentStreak + 1 ∧
      (submitCommit p score level gameTime won now).1.maxStreak =
        max p.maxStreak (p.currentStreak + 1)) ∧
    (won = false →
      (submitCommit p score level gameTime won now).1.currentStreak = 0 ∧
      (submitCommit p score level gameTime won now).1.bestTime = p.bestTime) ∧
    (∀ t, p.bestTime = some t → t ≠ 0 → won = true →
      (submitCommit p score level gameTime won now).1.bestTime =
        some (min t gameTime)) := by
  obtain ⟨hus, hul, hug, hupt, hucs, hums, hubt, -⟩ :=
    upsertPlayer_eval p score level
  obtain ⟨hg, hpt, hs, hl, -, hwt, hwf, hwbt⟩ :=
    applyGameStats_eval (upsertPlayer p score level) gameTime won now
  rw [hug] at hg
  rw [hupt] at hpt
  rw [hus] at hs
  rw [hubt] at hwbt hwf
  rw [hums] at hwf
  refine ⟨?_, ?_, ?_, ?_, ?_, ?_, ?_, ?_⟩
  · exact hs
  · exact le_trans hul (le_of_eq hl.symm)
  · exact hg
  · exact hpt
  · cases won with
    | false =>
      show p.maxStreak ≤
        (applyGameStats (upsertPlayer p score level) gameTime false now).maxStreak
      rw [(hwf rfl).2.1]
    | true =>
      show p.maxStreak ≤
        (applyGameStats (upsertPlayer p score level) gameTime true now).maxStreak
      rw [(hwt rfl).2, hucs, hums]
      exact le_max_left _ _
  · intro hw
    subst hw
    exact ⟨(hwt rfl).1.trans (by rw [hucs]),
      (hwt rfl).2.trans (by rw [hucs, hums])⟩
  · intro hw
    subst hw
    exact ⟨(hwf rfl).1, (hwf rfl).2.2⟩
  · intro t hbt htz hw
    subst hw
    have h := hwbt rfl
    rw [hbt] at h
    simp only at h
    by_cases hlt : gameTime < t
    · show (applyGameStats (upsertPlayer p score level) gameTime true now).bestTime =
        some (min t gameTime)
      rw [h, if_pos (Or.inr hlt), min_eq_right (le_of_lt hlt)]
    · show (applyGameStats (upsertPlayer p score level) gameTime true now).bestTime =
        some (min t gameTime)
      rw [h, if_neg (by rintro (h0 | h0); exact htz h0; exact hlt h0),
        min_eq_left (by omega)]

/-- C5 counterexample: the spec's own scenario (`score = 100000`,
`level = 5`, `elapsedTime = 30`, `won = true`, ceiling
`5 * 150 + 500 = 1250`) submitted through the `'submit score'` handler
of `migrate-users.js` is *not* rejected: the check only logs (its
`return` is commented out), the stats are committed (`totalGames`
increments, the score is stored) and the leaderboard is broadcast. -/
theorem plausibility_gate_log_only_counterexample :
    (100000 : Int) > 5 * 150 + 500 ∧
    (onSubmitScoreMigrate aliceSock basePlayer 5000000
        ⟨some 100000, some 5, some 30, some true⟩).player.totalGames =
      basePlayer.totalGames + 1 ∧
    (onSubmitScoreMigrate aliceSock basePlayer 5000000
        ⟨some 100000, some 5, some 30, some true⟩).player.score = 100000 ∧
    Event.updateLeaderboard ∈
      (onSubmitScoreMigrate aliceSock basePlayer 5000000
        ⟨some 100000, some 5, some 30, some true⟩).emits := by
  decide

/-- C5 amended: an authenticated, otherwise-valid, non-rate-limited
submission whose score exceeds the level-scaled ceiling
`level * 150 + 500` is still committed by the `migrate-users.js`
handler — the plausibility check logs a warning but does not reject —
so the stats are updated (`totalGames + 1`; the submitted score and
level are stored, and since the `SupabaseDB` adapter overwrites them
unconditionally a stored higher score is even lowered),
`updateGameStats` is called on the store and the leaderboard broadcast
goes out.  (The `server.js` variant rejects on a different, time-based
ceiling `score > gameTime * 10 + 100` and never reads the level.) -/
theorem suspicious_score_still_commits (sock : Socket) (p : Player)
    (now score level gameTime : Int) (won : Bool)
    (h1 : sock.currentUser ≠ none) (h2 : sock.isAuthenticated = true)
    (h3 : 0 ≤ score ∧ score ≤ 1000000) (h4 : 0 ≤ gameTime ∧ gameTime ≤ 3600)
    (h5 : 1 ≤ level ∧ level ≤ 1000)
    (h6 : scoreRateLimited sock.lastScoreSubmit now = false)
    (h7 : score > level * 150 + 500) :
    (onSubmitScoreMigrate sock p now
        ⟨some score, some level, some gameTime, some won⟩).player.totalGames =
      p.totalGames + 1 ∧
    (onSubmitScoreMigrate sock p now
        ⟨some score, some level, some gameTime, some won⟩).player.score =
      score ∧
    (onSubmitScoreMigrate sock p now
        ⟨some score, some level, some gameTime, some won⟩).player.level =
      level ∧
    StorageCall.updateGameStats (sock.currentUser.getD "") gameTime won ∈
      (onSubmitScoreMigrate sock p now
        ⟨some score, some level, some gameTime, some won⟩).calls ∧
    Event.updateLeaderboard ∈
      (onSubmitScoreMigrate sock p now
        ⟨some score, some level, some gameTime, some won⟩).emits := by
  have hguard : ¬ (sock.currentUser = none ∨ sock.isAuthenticated = false) := by
    rintro (h | h)
    · exact h1 h
    · rw [h2] at h
      cases h
  have hres : onSubmitScoreMigrate sock p now
      ⟨some score, some level, some gameTime, some won⟩ =
      ⟨{ sock with lastScoreSubmit := some now },
        (supaUpdateGameStats (supaUpsertPlayer p score level) gameTime won
          now).1,
        [.upsertPlayer (sock.currentUser.getD "") score,
          .updateGameStats (sock.currentUser.getD "") gameTime won,
          .getLeaderboard 10],
        (if (supaUpdateGameStats (supaUpsertPlayer p score level) gameTime won
              now).2.length > 0 then
          [Event.newAchievements
            (supaUpdateGameStats (supaUpsertPlayer p score level) gameTime won
              now).2]
          else []) ++ [Event.updateLeaderboard]⟩ := by
    rw [onSubmitScoreMigrate.eq_def, if_neg hguard]
    simp only
    rw [if_neg (not_not_intro h3), if_neg (not_not_intro h4),
      if_neg (not_not_intro h5), if_neg (by rw [h6]; exact Bool.false_ne_true)]
  rw [hres]
  refine ⟨rfl, rfl, rfl, ?_, ?_⟩
  · simp
  · simp

/-- C5 witness: the amended statement at the spec's scenario input
(`score = 100000`, `level = 5`, `elapsedTime = 30`, `won = true`). -/
theorem suspicious_score_still_commits_witness :
    (onSubmitScoreMigrate aliceSock basePlayer 5000000
        ⟨some 100000, some 5, some 30, some true⟩).player.totalGames =
      basePlayer.totalGames + 1 ∧
    (onSubmitScoreMigrate aliceSock basePlayer 5000000
        ⟨some 100000, some 5, some 30, some true⟩).player.score = 100000 ∧
    (onSubmitScoreMigrate aliceSock basePlayer 5000000
        ⟨some 100000, some 5, some 30, some true⟩).player.level = 5 ∧
    StorageCall.updateGameStats (aliceSock.currentUser.getD "") 30 true ∈
      (onSubmitScoreMigrate aliceSock basePlayer 5000000
        ⟨some 100000, some 5, some 30, some true⟩).calls ∧
    Event.updateLeaderboard ∈
      (onSubmitScoreMigrate aliceSock basePlayer 5000000
        ⟨some 100000, some 5, some 30, some true⟩).emits :=
  suspicious_score_still_commits aliceSock basePlayer 5000000 100000 5 30 true
    (by decide) (by decide) (by decide) (by decide) (by decide) (by decide)
    (by decide)

end CipherNode
